import Mathlib

/-!
# Minibot: the robot-level state machine of `app/src/robot.c`

A shallow embedding of `robot.c`.  The C globals (`g_robot_state`, the three
`rate_limiter_t` instances) become the fields of one record that every function
takes and returns; `g_remote`, which `robot.c` only reads, is an argument of each
function that reads it.  Calls that leave `robot.c` are appended, in program order,
to a call log carried in the same record, each together with the value of
`g_robot_state` at the moment of the call.  C `float` values are modelled by exact
rationals.
-/

namespace Minibot

/-! ## Data model -/

/-- Modelled from the spec: the enumerators of the operational state are declared in
`robot.h`, which is not part of the sources.  The field is a C `enum`, so it can hold
any integer; the three enumerators are numbered in the order the spec lists them.
Only their being pairwise distinct is ever used. -/
def STARTING_UP : Int := 0

/-- Modelled from the spec: second enumerator of the operational state (`robot.h`). -/
def DISABLED : Int := 1

/-- Modelled from the spec: third enumerator of the operational state (`robot.h`). -/
def ENABLED : Int := 2

/-- Modelled from the spec: connectivity flag value "offline" (`remote.h` is not part
of the sources).  Only `REMOTE_OFFLINE ≠ REMOTE_ONLINE` is ever used. -/
def REMOTE_OFFLINE : Nat := 0

/-- Modelled from the spec: connectivity flag value "online" (`remote.h`). -/
def REMOTE_ONLINE : Nat := 1

/-- Modelled from the spec: the "down" position of a remote switch (`remote.h`). -/
def DOWN : Nat := 2

/-- A two-axis stick of the remote controller. -/
structure Joystick_t where
  x : ℚ
  y : ℚ
deriving DecidableEq

/-- The part of `g_remote.controller` that `robot.c` reads. -/
structure Controller_t where
  left_stick : Joystick_t
  right_stick : Joystick_t
  right_switch : Nat
deriving DecidableEq

/-- The part of `g_remote` that `robot.c` reads: one remote sample. -/
structure Remote_t where
  controller : Controller_t
  online_flag : Nat
deriving DecidableEq

/-- The field `g_robot_state.input`. -/
structure Input_t where
  vx : ℚ
  vy : ℚ
  vomega : ℚ
deriving DecidableEq

/-- The field `g_robot_state.chassis`. -/
structure Chassis_t where
  x_speed : ℚ
  y_speed : ℚ
deriving DecidableEq

/-- The field `g_robot_state.launch`; the flag is a C integer, `0` is false. -/
structure Launch_t where
  IS_FLYWHEEL_ENABLED : Nat
deriving DecidableEq

/-- The part of `Robot_State_t` that `robot.c` touches. -/
structure Robot_State_t where
  state : Int
  input : Input_t
  chassis : Chassis_t
  launch : Launch_t
deriving DecidableEq

/-- Modelled from the spec: `rate_limiter.h` is not part of the sources.  A limiter
holds the last emitted value and the maximum change per invocation. -/
structure rate_limiter_t where
  previous_output : ℚ
  max_step : ℚ
deriving DecidableEq

/-- The three limiter instances of `robot.c`, as the target of a `&rate_limiter_…`
argument. -/
inductive Limiter where
  | rate_limiter_x
  | rate_limiter_y
  | rate_limiter_omega
deriving DecidableEq

/-- Every call that leaves `robot.c`.  `Gimbal_Ctrl_Loop` and `Launch_Ctrl_Loop` are
the control steps of the gimbal and launch collaborators; `robot.c` contains no call
to either, they are listed so that their absence from a log can be stated. -/
inductive Call where
  | Buzzer_Init
  | Buzzer_Play_Melody
  | Robot_Tasks_Start
  | Chassis_Task_Init
  | Gimbal_Task_Init
  | Launch_Task_Init
  | Remote_Init
  | CAN_Service_Init
  | Referee_System_Init
  | Supercap_Init
  | rate_limiter_init (which : Limiter) (max_step : ℚ)
  | DJI_Motor_Disable_All
  | DJI_Motor_Enable_All
  | Referee_Set_Robot_State
  | rate_limiter (which : Limiter) (raw_target : ℚ)
  | Chassis_Ctrl_Loop
  | Gimbal_Ctrl_Loop
  | Launch_Ctrl_Loop
  | Error_Handler
deriving DecidableEq

/-- One entry of the call log: the call and `g_robot_state` as it is when the call is
made. -/
structure Event where
  call : Call
  seen : Robot_State_t
deriving DecidableEq

/-- The mutable globals of `robot.c` together with the log of outgoing calls. -/
structure World where
  g_robot_state : Robot_State_t
  rate_limiter_x : rate_limiter_t
  rate_limiter_y : rate_limiter_t
  rate_limiter_omega : rate_limiter_t
  log : List Event
deriving DecidableEq

/-- Modelled from the spec: the bodies of the collaborators are not part of the
sources.  The spec gives them read access only to the robot snapshot ("never by giving
collaborators direct mutation rights"), so an outgoing call changes nothing but the
log: it is appended there together with the current `g_robot_state`. -/
def emit (w : World) (c : Call) : World :=
  { w with log := w.log ++ [⟨c, w.g_robot_state⟩] }

/-- The calls logged between an earlier world and a later one. -/
def emitted (before after : World) : List Call :=
  (after.log.drop before.log.length).map Event.call

/-! ## Rate limiter (collaborator of `robot.c`) -/

/-- The sign of a rational, as a rational. -/
def sign (d : ℚ) : ℚ :=
  if 0 < d then 1 else if d < 0 then -1 else 0

/-- Modelled from the spec: `rate_limiter_init` is defined outside the sources.
"initialize(max_step): sets max_step, resets previous_output = 0". -/
def rate_limiter_init (_rl : rate_limiter_t) (max_step : ℚ) : rate_limiter_t :=
  { previous_output := 0, max_step := max_step }

/-- Modelled from the spec: `rate_limiter` is defined outside the sources.
"let delta = raw_target - previous_output.  If |delta| <= max_step, output =
raw_target.  Otherwise output = previous_output + sign(delta) * max_step.  Store
output as the new previous_output."  Returns the output and the updated limiter. -/
def rate_limiter (rl : rate_limiter_t) (raw_target : ℚ) : ℚ × rate_limiter_t :=
  let delta := raw_target - rl.previous_output
  let output :=
    if |delta| ≤ rl.max_step then raw_target
    else rl.previous_output + sign delta * rl.max_step
  (output, { rl with previous_output := output })

/-! ## `robot.c` -/

/-- The globals at program start: `g_robot_state = {0}` and the three limiters in
zero-filled static storage; nothing has been called yet. -/
def startup : World :=
  { g_robot_state := ⟨0, ⟨0, 0, 0⟩, ⟨0, 0⟩, ⟨0⟩⟩
    rate_limiter_x := ⟨0, 0⟩
    rate_limiter_y := ⟨0, 0⟩
    rate_limiter_omega := ⟨0, 0⟩
    log := [] }

/-- The function `Robot_Init`. -/
def Robot_Init (w : World) : World :=
  let w := { w with g_robot_state.state := STARTING_UP }
  let w := emit w .Buzzer_Init
  let w := emit w .Buzzer_Play_Melody
  emit w .Robot_Tasks_Start

/-- The function `Handle_Starting_Up_State`. -/
def Handle_Starting_Up_State (w : World) : World :=
  let w := emit w .Chassis_Task_Init
  let w := emit w .Gimbal_Task_Init
  let w := emit w .Launch_Task_Init
  let w := emit w .Remote_Init
  let w := emit w .CAN_Service_Init
  let w := emit w .Referee_System_Init
  let w := emit w .Supercap_Init
  let w := emit w (.rate_limiter_init .rate_limiter_x (2 / 1000))
  let w := { w with rate_limiter_x := rate_limiter_init w.rate_limiter_x (2 / 1000) }
  let w := emit w (.rate_limiter_init .rate_limiter_y (2 / 1000))
  let w := { w with rate_limiter_y := rate_limiter_init w.rate_limiter_y (2 / 1000) }
  let w := emit w (.rate_limiter_init .rate_limiter_omega (2 / 1000))
  let w := { w with rate_limiter_omega := rate_limiter_init w.rate_limiter_omega (2 / 1000) }
  { w with g_robot_state.state := DISABLED }

/-- The function `Process_Remote_Input`. -/
def Process_Remote_Input (w : World) (g_remote : Remote_t) : World :=
  let w := emit w (.rate_limiter .rate_limiter_x g_remote.controller.left_stick.x)
  let r := rate_limiter w.rate_limiter_x g_remote.controller.left_stick.x
  let w := { w with rate_limiter_x := r.2, g_robot_state.input.vx := r.1 }
  let w := emit w (.rate_limiter .rate_limiter_y g_remote.controller.left_stick.y)
  let r := rate_limiter w.rate_limiter_y g_remote.controller.left_stick.y
  let w := { w with rate_limiter_y := r.2, g_robot_state.input.vy := r.1 }
  let w := emit w (.rate_limiter .rate_limiter_omega g_remote.controller.right_stick.x)
  let r := rate_limiter w.rate_limiter_omega g_remote.controller.right_stick.x
  { w with rate_limiter_omega := r.2, g_robot_state.input.vomega := r.1 }

/-- The function `Process_Chassis_Control`. -/
def Process_Chassis_Control (w : World) : World :=
  emit w .Chassis_Ctrl_Loop

/-- The function `Process_Gimbal_Control`: its body is empty. -/
def Process_Gimbal_Control (w : World) : World :=
  w

/-- The function `Process_Launch_Control`: its body is empty. -/
def Process_Launch_Control (w : World) : World :=
  w

/-- The function `Handle_Enabled_State`. -/
def Handle_Enabled_State (w : World) (g_remote : Remote_t) : World :=
  if g_remote.online_flag = REMOTE_OFFLINE ∨ g_remote.controller.right_switch = DOWN then
    { w with g_robot_state.state := DISABLED }
  else
    let w := emit w .Referee_Set_Robot_State
    let w := Process_Remote_Input w g_remote
    let w := Process_Chassis_Control w
    let w := Process_Gimbal_Control w
    Process_Launch_Control w

/-- The function `Handle_Disabled_State`. -/
def Handle_Disabled_State (w : World) (g_remote : Remote_t) : World :=
  let w := emit w .DJI_Motor_Disable_All
  let w := { w with g_robot_state.launch.IS_FLYWHEEL_ENABLED := 0 }
  let w := { w with g_robot_state.chassis.x_speed := 0 }
  let w := { w with g_robot_state.chassis.y_speed := 0 }
  if g_remote.online_flag = REMOTE_ONLINE ∧ g_remote.controller.right_switch ≠ DOWN then
    let w := { w with g_robot_state.state := ENABLED }
    emit w .DJI_Motor_Enable_All
  else
    w

/-- The function `Robot_Command_Loop`: one tick.  `Error_Handler` is logged like any
other outgoing call. -/
def Robot_Command_Loop (w : World) (g_remote : Remote_t) : World :=
  if w.g_robot_state.state = STARTING_UP then Handle_Starting_Up_State w
  else if w.g_robot_state.state = DISABLED then Handle_Disabled_State w g_remote
  else if w.g_robot_state.state = ENABLED then Handle_Enabled_State w g_remote
  else emit w .Error_Handler

/-- A run: `Robot_Command_Loop` applied once per remote sample, in order. -/
def run (w : World) (samples : List Remote_t) : World :=
  samples.foldl Robot_Command_Loop w

/-! ## Concrete inputs used to exercise the theorems -/

/-- A remote sample: link online, right switch not down, sticks deflected. -/
def sampleOnline : Remote_t :=
  { controller := { left_stick := ⟨1, -1⟩, right_stick := ⟨1 / 2, 0⟩, right_switch := 1 }
    online_flag := REMOTE_ONLINE }

/-- A remote sample: link offline, right switch not down. -/
def sampleOffline : Remote_t :=
  { controller := { left_stick := ⟨1, -1⟩, right_stick := ⟨1 / 2, 0⟩, right_switch := 1 }
    online_flag := REMOTE_OFFLINE }

/-- A world with non-zero speeds, the flywheel flag set, limiters as left by start-up
and the given operational state. -/
def worldIn (st : Int) : World :=
  { g_robot_state := ⟨st, ⟨1 / 4, 0, 0⟩, ⟨3, -2⟩, ⟨1⟩⟩
    rate_limiter_x := ⟨1 / 4, 2 / 1000⟩
    rate_limiter_y := ⟨0, 2 / 1000⟩
    rate_limiter_omega := ⟨0, 2 / 1000⟩
    log := [] }

/-- A remote sample: link online, right switch not down, left stick pushed the other
way on `x`; it agrees with `sampleOnline` on `left_stick.y` and `right_stick.x`. -/
def sampleOnlineOtherX : Remote_t :=
  { controller := { left_stick := ⟨-1, -1⟩, right_stick := ⟨1 / 2, 0⟩, right_switch := 1 }
    online_flag := REMOTE_ONLINE }

/-! ## Sequences of limiter calls and classes of calls -/

/-- The outputs of successive `rate_limiter` calls on one limiter, one call per raw
target of the list, in order. -/
def rate_limiter_outputs (rl : rate_limiter_t) : List ℚ → List ℚ
  | [] => []
  | t :: ts => (rate_limiter rl t).1 :: rate_limiter_outputs (rate_limiter rl t).2 ts

/-- The limiter after `n` successive `rate_limiter` calls with the same raw target. -/
def rate_limiter_repeat (rl : rate_limiter_t) (raw_target : ℚ) : Nat → rate_limiter_t
  | 0 => rl
  | n + 1 => rate_limiter_repeat (rate_limiter rl raw_target).2 raw_target n

/-- The calls made by `Handle_Starting_Up_State`: the seven hardware init
collaborators and `rate_limiter_init`. -/
def Call.isInit : Call → Bool
  | .Chassis_Task_Init => true
  | .Gimbal_Task_Init => true
  | .Launch_Task_Init => true
  | .Remote_Init => true
  | .CAN_Service_Init => true
  | .Referee_System_Init => true
  | .Supercap_Init => true
  | .rate_limiter_init _ _ => true
  | _ => false

/-- The calls made on the active branch of `Handle_Enabled_State`: telemetry publish,
input shaping and the control steps. -/
def Call.isEnabledWork : Call → Bool
  | .Referee_Set_Robot_State => true
  | .rate_limiter _ _ => true
  | .Chassis_Ctrl_Loop => true
  | .Gimbal_Ctrl_Loop => true
  | .Launch_Ctrl_Loop => true
  | _ => false

/-! ## Auxiliary facts -/

theorem emitted_of_log_eq (before after : World) (l : List Event)
    (h : after.log = before.log ++ l) : emitted before after = l.map Event.call := by
  simp [emitted, h]

theorem states_distinct :
    STARTING_UP ≠ DISABLED ∧ STARTING_UP ≠ ENABLED ∧ DISABLED ≠ ENABLED := by
  decide

theorem Robot_Command_Loop_starting_up (w : World) (r : Remote_t)
    (h : w.g_robot_state.state = STARTING_UP) :
    Robot_Command_Loop w r = Handle_Starting_Up_State w := by
  simp [Robot_Command_Loop, h]

theorem Robot_Command_Loop_disabled (w : World) (r : Remote_t)
    (h : w.g_robot_state.state = DISABLED) :
    Robot_Command_Loop w r = Handle_Disabled_State w r := by
  simp [Robot_Command_Loop, h, STARTING_UP, DISABLED]

theorem Robot_Command_Loop_enabled (w : World) (r : Remote_t)
    (h : w.g_robot_state.state = ENABLED) :
    Robot_Command_Loop w r = Handle_Enabled_State w r := by
  simp [Robot_Command_Loop, h, STARTING_UP, DISABLED, ENABLED]

/-! ## The DISABLED handler -/

/-- C1: after `Handle_Disabled_State`, for every world and every remote sample, both
chassis speeds are zero and the flywheel flag is cleared, whether or not the handler
moved the operational state to `ENABLED`. -/
theorem Handle_Disabled_State_clears (w : World) (r : Remote_t) :
    (Handle_Disabled_State w r).g_robot_state.chassis.x_speed = 0 ∧
    (Handle_Disabled_State w r).g_robot_state.chassis.y_speed = 0 ∧
    (Handle_Disabled_State w r).g_robot_state.launch.IS_FLYWHEEL_ENABLED = 0 := by
  unfold Handle_Disabled_State
  split <;> simp [emit]

theorem Handle_Disabled_State_log (w : World) (r : Remote_t) :
    (Handle_Disabled_State w r).log =
      w.log ++ (⟨.DJI_Motor_Disable_All, w.g_robot_state⟩ ::
        if r.online_flag = REMOTE_ONLINE ∧ r.controller.right_switch ≠ DOWN then
          [⟨.DJI_Motor_Enable_All,
            { w.g_robot_state with
              state := ENABLED, chassis := ⟨0, 0⟩, launch := ⟨0⟩ }⟩]
        else []) := by
  unfold Handle_Disabled_State
  split <;> simp [emit]

theorem Handle_Disabled_State_state (w : World) (r : Remote_t) :
    (Handle_Disabled_State w r).g_robot_state.state =
      if r.online_flag = REMOTE_ONLINE ∧ r.controller.right_switch ≠ DOWN then ENABLED
      else w.g_robot_state.state := by
  unfold Handle_Disabled_State
  split <;> simp [emit]

/-- C2: one tick of `Robot_Command_Loop` that starts in `DISABLED` ends in `ENABLED`
exactly when the link is `REMOTE_ONLINE` and the right switch is not `DOWN`, and ends
in `DISABLED` otherwise; `DJI_Motor_Enable_All` is called exactly once in a tick that
ends in `ENABLED` and not at all in a tick that ends in `DISABLED`. -/
theorem disabled_tick_transition (w : World) (r : Remote_t)
    (h : w.g_robot_state.state = DISABLED) :
    ((Robot_Command_Loop w r).g_robot_state.state = ENABLED ↔
      (r.online_flag = REMOTE_ONLINE ∧ r.controller.right_switch ≠ DOWN)) ∧
    (¬ (r.online_flag = REMOTE_ONLINE ∧ r.controller.right_switch ≠ DOWN) →
      (Robot_Command_Loop w r).g_robot_state.state = DISABLED) ∧
    ((Robot_Command_Loop w r).g_robot_state.state = ENABLED →
      (emitted w (Robot_Command_Loop w r)).count .DJI_Motor_Enable_All = 1) ∧
    ((Robot_Command_Loop w r).g_robot_state.state = DISABLED →
      (emitted w (Robot_Command_Loop w r)).count .DJI_Motor_Enable_All = 0) := by
  rw [Robot_Command_Loop_disabled w r h,
    emitted_of_log_eq _ _ _ (Handle_Disabled_State_log w r), Handle_Disabled_State_state, h]
  by_cases hc : r.online_flag = REMOTE_ONLINE ∧ r.controller.right_switch ≠ DOWN
  · simp [hc, states_distinct.2.2.symm]
  · simp [hc, states_distinct.2.2]

/-- C2 on a concrete tick: a disabled robot that sees the link online with the
switch up. -/
theorem disabled_tick_transition_witness :
    (worldIn DISABLED).g_robot_state.state = DISABLED ∧
    (Robot_Command_Loop (worldIn DISABLED) sampleOnline).g_robot_state.state = ENABLED ∧
    (emitted (worldIn DISABLED)
      (Robot_Command_Loop (worldIn DISABLED) sampleOnline)).count .DJI_Motor_Enable_All = 1 :=
  have hs : (Robot_Command_Loop (worldIn DISABLED) sampleOnline).g_robot_state.state
      = ENABLED :=
    (disabled_tick_transition (worldIn DISABLED) sampleOnline rfl).1.2 (by decide)
  ⟨rfl, hs, (disabled_tick_transition (worldIn DISABLED) sampleOnline rfl).2.2.1 hs⟩

/-! ## The ENABLED handler, safety branch -/

/-- C3: when the link is `REMOTE_OFFLINE` or the right switch is `DOWN`, one tick of
`Robot_Command_Loop` that starts in `ENABLED` ends in `DISABLED`, makes no outgoing
call at all (so no telemetry publish, no rate limiter and no control step), and leaves
the input axes and the three limiters as they were. -/
theorem enabled_tick_safety_stop (w : World) (r : Remote_t)
    (h : w.g_robot_state.state = ENABLED)
    (hr : r.online_flag = REMOTE_OFFLINE ∨ r.controller.right_switch = DOWN) :
    (Robot_Command_Loop w r).g_robot_state.state = DISABLED ∧
    emitted w (Robot_Command_Loop w r) = [] ∧
    (Robot_Command_Loop w r).g_robot_state.input = w.g_robot_state.input ∧
    (Robot_Command_Loop w r).rate_limiter_x = w.rate_limiter_x ∧
    (Robot_Command_Loop w r).rate_limiter_y = w.rate_limiter_y ∧
    (Robot_Command_Loop w r).rate_limiter_omega = w.rate_limiter_omega := by
  rw [Robot_Command_Loop_enabled w r h]
  simp [Handle_Enabled_State, hr, emitted]

/-- C3 on a concrete tick: an enabled robot that sees the link offline. -/
theorem enabled_tick_safety_stop_witness :
    (worldIn ENABLED).g_robot_state.state = ENABLED ∧
    (sampleOffline.online_flag = REMOTE_OFFLINE ∨
      sampleOffline.controller.right_switch = DOWN) ∧
    (Robot_Command_Loop (worldIn ENABLED) sampleOffline).g_robot_state.state = DISABLED ∧
    emitted (worldIn ENABLED) (Robot_Command_Loop (worldIn ENABLED) sampleOffline) = [] :=
  ⟨rfl, Or.inl rfl,
    (enabled_tick_safety_stop (worldIn ENABLED) sampleOffline rfl (Or.inl rfl)).1,
    (enabled_tick_safety_stop (worldIn ENABLED) sampleOffline rfl (Or.inl rfl)).2.1⟩

/-! ## Start-up -/

theorem Handle_Starting_Up_State_log (w : World) :
    (Handle_Starting_Up_State w).log =
      w.log ++ [⟨.Chassis_Task_Init, w.g_robot_state⟩, ⟨.Gimbal_Task_Init, w.g_robot_state⟩,
        ⟨.Launch_Task_Init, w.g_robot_state⟩, ⟨.Remote_Init, w.g_robot_state⟩,
        ⟨.CAN_Service_Init, w.g_robot_state⟩, ⟨.Referee_System_Init, w.g_robot_state⟩,
        ⟨.Supercap_Init, w.g_robot_state⟩,
        ⟨.rate_limiter_init .rate_limiter_x (2 / 1000), w.g_robot_state⟩,
        ⟨.rate_limiter_init .rate_limiter_y (2 / 1000), w.g_robot_state⟩,
        ⟨.rate_limiter_init .rate_limiter_omega (2 / 1000), w.g_robot_state⟩] := by
  simp [Handle_Starting_Up_State, emit]

/-- C4: one tick of `Robot_Command_Loop` that starts in `STARTING_UP` calls each of
the seven init collaborators exactly once, calls `rate_limiter_init` exactly once for
each of the three limiters and each time with the step bound `0.002`, leaves the three
limiters initialised with that bound, and ends in `DISABLED` whatever the remote
sample is (the whole result does not depend on the sample). -/
theorem starting_up_tick (w : World) (r : Remote_t)
    (h : w.g_robot_state.state = STARTING_UP) :
    emitted w (Robot_Command_Loop w r) =
      [.Chassis_Task_Init, .Gimbal_Task_Init, .Launch_Task_Init, .Remote_Init,
        .CAN_Service_Init, .Referee_System_Init, .Supercap_Init,
        .rate_limiter_init .rate_limiter_x (2 / 1000),
        .rate_limiter_init .rate_limiter_y (2 / 1000),
        .rate_limiter_init .rate_limiter_omega (2 / 1000)] ∧
    (∀ c ∈ [Call.Chassis_Task_Init, .Gimbal_Task_Init, .Launch_Task_Init, .Remote_Init,
        .CAN_Service_Init, .Referee_System_Init, .Supercap_Init],
      (emitted w (Robot_Command_Loop w r)).count c = 1) ∧
    (∀ (l : Limiter) (step : ℚ),
      (emitted w (Robot_Command_Loop w r)).count (.rate_limiter_init l step) =
        if step = 2 / 1000 then 1 else 0) ∧
    (Robot_Command_Loop w r).rate_limiter_x = ⟨0, 2 / 1000⟩ ∧
    (Robot_Command_Loop w r).rate_limiter_y = ⟨0, 2 / 1000⟩ ∧
    (Robot_Command_Loop w r).rate_limiter_omega = ⟨0, 2 / 1000⟩ ∧
    (Robot_Command_Loop w r).g_robot_state.state = DISABLED ∧
    (∀ r2 : Remote_t, Robot_Command_Loop w r2 = Robot_Command_Loop w r) := by
  rw [Robot_Command_Loop_starting_up w r h,
    emitted_of_log_eq _ _ _ (Handle_Starting_Up_State_log w)]
  refine ⟨by simp, ?_, ?_, ?_, ?_, ?_, ?_, ?_⟩
  · intro c hc
    simp only [List.mem_cons, List.mem_singleton, List.not_mem_nil, or_false] at hc
    rcases hc with rfl | rfl | rfl | rfl | rfl | rfl | rfl <;> simp
  · intro l step
    cases l <;> by_cases hs : step = 2 / 1000 <;> simp [hs, List.count_cons, eq_comm]
  · simp [Handle_Starting_Up_State, emit, rate_limiter_init]
  · simp [Handle_Starting_Up_State, emit, rate_limiter_init]
  · simp [Handle_Starting_Up_State, emit, rate_limiter_init]
  · simp [Handle_Starting_Up_State, emit]
  · intro r2
    rw [Robot_Command_Loop_starting_up w r2 h]

/-- C4 on a concrete tick: the first tick after `Robot_Init`. -/
theorem starting_up_tick_witness :
    (Robot_Init startup).g_robot_state.state = STARTING_UP ∧
    (Robot_Command_Loop (Robot_Init startup) sampleOnline).g_robot_state.state = DISABLED ∧
    (Robot_Command_Loop (Robot_Init startup) sampleOnline).rate_limiter_x = ⟨0, 2 / 1000⟩ :=
  ⟨rfl, (starting_up_tick (Robot_Init startup) sampleOnline rfl).2.2.2.2.2.2.1,
    (starting_up_tick (Robot_Init startup) sampleOnline rfl).2.2.2.1⟩

/-! ## Invalid operational state -/

/-- C5: for every operational-state value other than `STARTING_UP`, `DISABLED` and
`ENABLED`, one call of `Robot_Command_Loop` calls `Error_Handler` exactly once and
makes no other outgoing call (no init, actuator enable or disable, telemetry, rate
limiter or control step), and leaves `g_robot_state` (operational state included) and
the three limiters unmodified. -/
theorem invalid_state_tick (w : World) (r : Remote_t)
    (h1 : w.g_robot_state.state ≠ STARTING_UP) (h2 : w.g_robot_state.state ≠ DISABLED)
    (h3 : w.g_robot_state.state ≠ ENABLED) :
    emitted w (Robot_Command_Loop w r) = [.Error_Handler] ∧
    (emitted w (Robot_Command_Loop w r)).count .Error_Handler = 1 ∧
    (∀ c ∈ emitted w (Robot_Command_Loop w r), c = .Error_Handler) ∧
    (Robot_Command_Loop w r).g_robot_state = w.g_robot_state ∧
    (Robot_Command_Loop w r).rate_limiter_x = w.rate_limiter_x ∧
    (Robot_Command_Loop w r).rate_limiter_y = w.rate_limiter_y ∧
    (Robot_Command_Loop w r).rate_limiter_omega = w.rate_limiter_omega := by
  have hstep : Robot_Command_Loop w r = emit w .Error_Handler := by
    simp [Robot_Command_Loop, h1, h2, h3]
  have hem : emitted w (Robot_Command_Loop w r) = [.Error_Handler] := by
    rw [hstep]; simp [emitted, emit]
  rw [hem, hstep]
  simp [emit]

/-- C5 on a concrete tick: the operational state holds the value 7. -/
theorem invalid_state_tick_witness :
    (worldIn 7).g_robot_state.state ≠ STARTING_UP ∧
    (worldIn 7).g_robot_state.state ≠ DISABLED ∧
    (worldIn 7).g_robot_state.state ≠ ENABLED ∧
    emitted (worldIn 7) (Robot_Command_Loop (worldIn 7) sampleOnline) = [.Error_Handler] ∧
    (Robot_Command_Loop (worldIn 7) sampleOnline).g_robot_state = (worldIn 7).g_robot_state :=
  ⟨by decide, by decide, by decide,
    (invalid_state_tick (worldIn 7) sampleOnline (by decide) (by decide) (by decide)).1,
    (invalid_state_tick (worldIn 7) sampleOnline (by decide) (by decide) (by decide)).2.2.2.1⟩

/-! ## Actuator calls on transitions -/

/-- C6, as stated, fails: an enabled robot that sees the link offline moves to
`DISABLED` in a tick that does not call `DJI_Motor_Disable_All`. -/
theorem enabled_to_disabled_without_disable_call :
    (worldIn ENABLED).g_robot_state.state = ENABLED ∧
    (Robot_Command_Loop (worldIn ENABLED) sampleOffline).g_robot_state.state = DISABLED ∧
    Call.DJI_Motor_Disable_All ∉
      emitted (worldIn ENABLED) (Robot_Command_Loop (worldIn ENABLED) sampleOffline) := by
  decide

/-- C6, amended: a tick that performs the `ENABLED` to `DISABLED` transition makes no
outgoing call; `DJI_Motor_Disable_All` is the first call of the tick that follows it,
whatever that tick's remote sample.  A tick that performs the `DISABLED` to `ENABLED`
transition calls `DJI_Motor_Enable_All` in that tick, exactly once. -/
theorem transition_actuator_calls (w : World) (r : Remote_t) :
    (w.g_robot_state.state = ENABLED →
      (Robot_Command_Loop w r).g_robot_state.state = DISABLED →
        emitted w (Robot_Command_Loop w r) = [] ∧
        ∀ r2 : Remote_t,
          (emitted (Robot_Command_Loop w r)
            (Robot_Command_Loop (Robot_Command_Loop w r) r2)).head? =
              some .DJI_Motor_Disable_All) ∧
    (w.g_robot_state.state = DISABLED →
      (Robot_Command_Loop w r).g_robot_state.state = ENABLED →
        .DJI_Motor_Enable_All ∈ emitted w (Robot_Command_Loop w r) ∧
        (emitted w (Robot_Command_Loop w r)).count .DJI_Motor_Enable_All = 1) := by
  constructor
  · intro h hpost
    have hcond : r.online_flag = REMOTE_OFFLINE ∨ r.controller.right_switch = DOWN := by
      by_contra hc
      rw [Robot_Command_Loop_enabled w r h] at hpost
      simp [Handle_Enabled_State, hc, Process_Remote_Input, Process_Chassis_Control,
        Process_Gimbal_Control, Process_Launch_Control, emit, h] at hpost
      exact states_distinct.2.2 hpost.symm
    refine ⟨?_, ?_⟩
    · rw [Robot_Command_Loop_enabled w r h]
      simp [Handle_Enabled_State, hcond, emitted]
    · intro r2
      rw [Robot_Command_Loop_disabled _ r2 hpost,
        emitted_of_log_eq _ _ _ (Handle_Disabled_State_log _ r2)]
      simp
  · intro h hpost
    rw [Robot_Command_Loop_disabled w r h] at hpost ⊢
    rw [emitted_of_log_eq _ _ _ (Handle_Disabled_State_log w r)]
    rw [Handle_Disabled_State_state, h] at hpost
    have hc : r.online_flag = REMOTE_ONLINE ∧ r.controller.right_switch ≠ DOWN := by
      by_contra hc
      rw [if_neg hc] at hpost
      exact states_distinct.2.2 hpost
    simp [hc]

/-- C6, amended, on concrete ticks: one for each of the two transitions. -/
theorem transition_actuator_calls_witness :
    ((worldIn ENABLED).g_robot_state.state = ENABLED ∧
      (Robot_Command_Loop (worldIn ENABLED) sampleOffline).g_robot_state.state = DISABLED ∧
      emitted (worldIn ENABLED) (Robot_Command_Loop (worldIn ENABLED) sampleOffline) = []) ∧
    ((worldIn DISABLED).g_robot_state.state = DISABLED ∧
      (Robot_Command_Loop (worldIn DISABLED) sampleOnline).g_robot_state.state = ENABLED ∧
      (emitted (worldIn DISABLED)
        (Robot_Command_Loop (worldIn DISABLED) sampleOnline)).count
          .DJI_Motor_Enable_All = 1) :=
  ⟨⟨rfl, by decide,
      ((transition_actuator_calls (worldIn ENABLED) sampleOffline).1 rfl (by decide)).1⟩,
    ⟨rfl, by decide,
      ((transition_actuator_calls (worldIn DISABLED) sampleOnline).2 rfl (by decide)).2⟩⟩

/-! ## Reachable states -/

theorem Robot_Command_Loop_keeps_cleared (w : World) (r : Remote_t)
    (h : w.g_robot_state.chassis.x_speed = 0 ∧ w.g_robot_state.chassis.y_speed = 0 ∧
      w.g_robot_state.launch.IS_FLYWHEEL_ENABLED = 0) :
    (Robot_Command_Loop w r).g_robot_state.chassis.x_speed = 0 ∧
    (Robot_Command_Loop w r).g_robot_state.chassis.y_speed = 0 ∧
    (Robot_Command_Loop w r).g_robot_state.launch.IS_FLYWHEEL_ENABLED = 0 := by
  obtain ⟨hx, hy, hf⟩ := h
  unfold Robot_Command_Loop
  split
  · simp [Handle_Starting_Up_State, emit, hx, hy, hf]
  · split
    · unfold Handle_Disabled_State
      split <;> simp [emit]
    · split
      · unfold Handle_Enabled_State
        split <;>
          simp [Process_Remote_Input, Process_Chassis_Control, Process_Gimbal_Control,
            Process_Launch_Control, emit, hx, hy, hf]
      · simp [emit, hx, hy, hf]

theorem run_keeps_cleared (samples : List Remote_t) (w : World)
    (h : w.g_robot_state.chassis.x_speed = 0 ∧ w.g_robot_state.chassis.y_speed = 0 ∧
      w.g_robot_state.launch.IS_FLYWHEEL_ENABLED = 0) :
    (run w samples).g_robot_state.chassis.x_speed = 0 ∧
    (run w samples).g_robot_state.chassis.y_speed = 0 ∧
    (run w samples).g_robot_state.launch.IS_FLYWHEEL_ENABLED = 0 := by
  induction samples generalizing w with
  | nil => simpa [run] using h
  | cons r rest ih =>
    have hstep := ih (Robot_Command_Loop w r) (Robot_Command_Loop_keeps_cleared w r h)
    simpa [run] using hstep

/-- C7: in every run that starts from the world left by `Robot_Init` on the
zero-filled globals and applies `Robot_Command_Loop` once per sample of an arbitrary
sample sequence, whenever the operational state after the run is `DISABLED` both
chassis speeds are zero and the flywheel flag is cleared.  (The sample sequence is
arbitrary, so this covers every point between ticks.) -/
theorem disabled_invariant_reachable (samples : List Remote_t)
    (h : (run (Robot_Init startup) samples).g_robot_state.state = DISABLED) :
    (run (Robot_Init startup) samples).g_robot_state.chassis.x_speed = 0 ∧
    (run (Robot_Init startup) samples).g_robot_state.chassis.y_speed = 0 ∧
    (run (Robot_Init startup) samples).g_robot_state.launch.IS_FLYWHEEL_ENABLED = 0 :=
  have _ := h
  run_keeps_cleared samples (Robot_Init startup) ⟨rfl, rfl, rfl⟩

/-- C7 on a concrete run: start-up, enable, drive, link lost. -/
theorem disabled_invariant_reachable_witness :
    (run (Robot_Init startup)
      [sampleOffline, sampleOnline, sampleOnline, sampleOffline]).g_robot_state.state
        = DISABLED ∧
    (run (Robot_Init startup)
      [sampleOffline, sampleOnline, sampleOnline, sampleOffline]).g_robot_state.chassis.x_speed
        = 0 :=
  ⟨by decide,
    (disabled_invariant_reachable
      [sampleOffline, sampleOnline, sampleOnline, sampleOffline] (by decide)).1⟩

/-! ## The ENABLED handler, active branch -/

theorem Process_Remote_Input_log (w : World) (r : Remote_t) :
    (Process_Remote_Input w r).log =
      w.log ++
        [⟨.rate_limiter .rate_limiter_x r.controller.left_stick.x, w.g_robot_state⟩,
         ⟨.rate_limiter .rate_limiter_y r.controller.left_stick.y,
          { w.g_robot_state with
            input.vx := (rate_limiter w.rate_limiter_x r.controller.left_stick.x).1 }⟩,
         ⟨.rate_limiter .rate_limiter_omega r.controller.right_stick.x,
          { w.g_robot_state with
            input.vx := (rate_limiter w.rate_limiter_x r.controller.left_stick.x).1,
            input.vy := (rate_limiter w.rate_limiter_y r.controller.left_stick.y).1 }⟩] := by
  simp [Process_Remote_Input, emit]

theorem Process_Remote_Input_state (w : World) (r : Remote_t) :
    (Process_Remote_Input w r).g_robot_state =
      { w.g_robot_state with
        input := ⟨(rate_limiter w.rate_limiter_x r.controller.left_stick.x).1,
          (rate_limiter w.rate_limiter_y r.controller.left_stick.y).1,
          (rate_limiter w.rate_limiter_omega r.controller.right_stick.x).1⟩ } := by
  simp [Process_Remote_Input, emit]

theorem Handle_Enabled_State_active (w : World) (r : Remote_t)
    (h1 : r.online_flag ≠ REMOTE_OFFLINE) (h2 : r.controller.right_switch ≠ DOWN) :
    Handle_Enabled_State w r =
      Process_Launch_Control (Process_Gimbal_Control (Process_Chassis_Control
        (Process_Remote_Input (emit w .Referee_Set_Robot_State) r))) := by
  simp [Handle_Enabled_State, h1, h2]

theorem Handle_Enabled_State_active_log (w : World) (r : Remote_t)
    (h1 : r.online_flag ≠ REMOTE_OFFLINE) (h2 : r.controller.right_switch ≠ DOWN) :
    (Handle_Enabled_State w r).log =
      w.log ++
        [⟨.Referee_Set_Robot_State, w.g_robot_state⟩,
         ⟨.rate_limiter .rate_limiter_x r.controller.left_stick.x, w.g_robot_state⟩,
         ⟨.rate_limiter .rate_limiter_y r.controller.left_stick.y,
          { w.g_robot_state with
            input.vx := (rate_limiter w.rate_limiter_x r.controller.left_stick.x).1 }⟩,
         ⟨.rate_limiter .rate_limiter_omega r.controller.right_stick.x,
          { w.g_robot_state with
            input.vx := (rate_limiter w.rate_limiter_x r.controller.left_stick.x).1,
            input.vy := (rate_limiter w.rate_limiter_y r.controller.left_stick.y).1 }⟩,
         ⟨.Chassis_Ctrl_Loop, (Handle_Enabled_State w r).g_robot_state⟩] := by
  rw [Handle_Enabled_State_active w r h1 h2]
  simp only [Process_Launch_Control, Process_Gimbal_Control, Process_Chassis_Control]
  simp [emit, Process_Remote_Input_log, Process_Remote_Input_state]

theorem Handle_Enabled_State_active_state (w : World) (r : Remote_t)
    (h1 : r.online_flag ≠ REMOTE_OFFLINE) (h2 : r.controller.right_switch ≠ DOWN) :
    (Handle_Enabled_State w r).g_robot_state =
      { w.g_robot_state with
        input := ⟨(rate_limiter w.rate_limiter_x r.controller.left_stick.x).1,
          (rate_limiter w.rate_limiter_y r.controller.left_stick.y).1,
          (rate_limiter w.rate_limiter_omega r.controller.right_stick.x).1⟩ } := by
  rw [Handle_Enabled_State_active w r h1 h2]
  simp only [Process_Launch_Control, Process_Gimbal_Control, Process_Chassis_Control]
  simp [emit, Process_Remote_Input_state]

/-- C8: when the link is not `REMOTE_OFFLINE` and the right switch is not `DOWN`, one
tick of `Robot_Command_Loop` that starts in `ENABLED` stays in `ENABLED`; its calls
are, in order, `Referee_Set_Robot_State`, the three `rate_limiter` calls and
`Chassis_Ctrl_Loop`, so the telemetry publish happens exactly once and before the
input shaping and the chassis control step; and the `g_robot_state` that
`Chassis_Ctrl_Loop` is called on already holds the three shaped inputs. -/
theorem enabled_tick_active (w : World) (r : Remote_t)
    (h : w.g_robot_state.state = ENABLED)
    (h1 : r.online_flag ≠ REMOTE_OFFLINE) (h2 : r.controller.right_switch ≠ DOWN) :
    (Robot_Command_Loop w r).g_robot_state.state = ENABLED ∧
    (emitted w (Robot_Command_Loop w r)).count .Referee_Set_Robot_State = 1 ∧
    emitted w (Robot_Command_Loop w r) =
      [.Referee_Set_Robot_State,
       .rate_limiter .rate_limiter_x r.controller.left_stick.x,
       .rate_limiter .rate_limiter_y r.controller.left_stick.y,
       .rate_limiter .rate_limiter_omega r.controller.right_stick.x,
       .Chassis_Ctrl_Loop] ∧
    (∀ e ∈ (Robot_Command_Loop w r).log.drop w.log.length,
      e.call = .Chassis_Ctrl_Loop →
        e.seen.input.vx = (rate_limiter w.rate_limiter_x r.controller.left_stick.x).1 ∧
        e.seen.input.vy = (rate_limiter w.rate_limiter_y r.controller.left_stick.y).1 ∧
        e.seen.input.vomega =
          (rate_limiter w.rate_limiter_omega r.controller.right_stick.x).1) := by
  rw [Robot_Command_Loop_enabled w r h,
    emitted_of_log_eq _ _ _ (Handle_Enabled_State_active_log w r h1 h2),
    Handle_Enabled_State_active_log w r h1 h2, Handle_Enabled_State_active_state w r h1 h2]
  refine ⟨h, by simp, by simp, ?_⟩
  intro e he
  simp only [List.drop_left, List.mem_cons, List.mem_singleton, List.not_mem_nil,
    or_false] at he
  rcases he with rfl | rfl | rfl | rfl | rfl <;> simp

/-- C8 on a concrete tick: an enabled robot driven with the link online. -/
theorem enabled_tick_active_witness :
    (worldIn ENABLED).g_robot_state.state = ENABLED ∧
    sampleOnline.online_flag ≠ REMOTE_OFFLINE ∧
    sampleOnline.controller.right_switch ≠ DOWN ∧
    (Robot_Command_Loop (worldIn ENABLED) sampleOnline).g_robot_state.state = ENABLED ∧
    (emitted (worldIn ENABLED)
      (Robot_Command_Loop (worldIn ENABLED) sampleOnline)).count
        .Referee_Set_Robot_State = 1 :=
  ⟨rfl, by decide, by decide,
    (enabled_tick_active (worldIn ENABLED) sampleOnline rfl (by decide) (by decide)).1,
    (enabled_tick_active (worldIn ENABLED) sampleOnline rfl (by decide) (by decide)).2.1⟩

/-! ## Control steps -/

/-- C9, as stated, fails: on an enabled tick that stays enabled the chassis control
step is called once, but neither the gimbal nor the launch control step is called. -/
theorem enabled_tick_gimbal_launch_not_stepped :
    (worldIn ENABLED).g_robot_state.state = ENABLED ∧
    (Robot_Command_Loop (worldIn ENABLED) sampleOnline).g_robot_state.state = ENABLED ∧
    (emitted (worldIn ENABLED)
      (Robot_Command_Loop (worldIn ENABLED) sampleOnline)).count .Chassis_Ctrl_Loop = 1 ∧
    (emitted (worldIn ENABLED)
      (Robot_Command_Loop (worldIn ENABLED) sampleOnline)).count .Gimbal_Ctrl_Loop ≠ 1 ∧
    (emitted (worldIn ENABLED)
      (Robot_Command_Loop (worldIn ENABLED) sampleOnline)).count .Launch_Ctrl_Loop ≠ 1 := by
  decide

/-- C9, amended: on every `ENABLED` tick that stays `ENABLED`, the three functions
`Process_Chassis_Control`, `Process_Gimbal_Control` and `Process_Launch_Control` are
each run once, in that order, after the input shaping; `Chassis_Ctrl_Loop`, the
control step of the chassis collaborator, is called exactly once; the gimbal and
launch functions have empty bodies, so no gimbal or launch control step is called. -/
theorem enabled_tick_control_steps (w : World) (r : Remote_t)
    (h : w.g_robot_state.state = ENABLED)
    (hpost : (Robot_Command_Loop w r).g_robot_state.state = ENABLED) :
    Robot_Command_Loop w r =
      Process_Launch_Control (Process_Gimbal_Control (Process_Chassis_Control
        (Process_Remote_Input (emit w .Referee_Set_Robot_State) r))) ∧
    (emitted w (Robot_Command_Loop w r)).count .Chassis_Ctrl_Loop = 1 ∧
    (emitted w (Robot_Command_Loop w r)).count .Gimbal_Ctrl_Loop = 0 ∧
    (emitted w (Robot_Command_Loop w r)).count .Launch_Ctrl_Loop = 0 ∧
    (∀ v : World, Process_Gimbal_Control v = v ∧ Process_Launch_Control v = v) := by
  have hc : r.online_flag ≠ REMOTE_OFFLINE ∧ r.controller.right_switch ≠ DOWN := by
    by_contra hc
    have hc2 : r.online_flag = REMOTE_OFFLINE ∨ r.controller.right_switch = DOWN := by
      by_cases ho : r.online_flag = REMOTE_OFFLINE
      · exact Or.inl ho
      · by_cases hd : r.controller.right_switch = DOWN
        · exact Or.inr hd
        · exact absurd ⟨ho, hd⟩ hc
    rw [Robot_Command_Loop_enabled w r h] at hpost
    simp [Handle_Enabled_State, hc2] at hpost
    exact states_distinct.2.2 hpost
  rw [Robot_Command_Loop_enabled w r h,
    emitted_of_log_eq _ _ _ (Handle_Enabled_State_active_log w r hc.1 hc.2)]
  refine ⟨Handle_Enabled_State_active w r hc.1 hc.2, by simp, by simp, by simp, ?_⟩
  intro v
  exact ⟨rfl, rfl⟩

/-- C9, amended, on a concrete tick: an enabled robot driven with the link online. -/
theorem enabled_tick_control_steps_witness :
    (worldIn ENABLED).g_robot_state.state = ENABLED ∧
    (Robot_Command_Loop (worldIn ENABLED) sampleOnline).g_robot_state.state = ENABLED ∧
    (emitted (worldIn ENABLED)
      (Robot_Command_Loop (worldIn ENABLED) sampleOnline)).count .Chassis_Ctrl_Loop = 1 ∧
    (emitted (worldIn ENABLED)
      (Robot_Command_Loop (worldIn ENABLED) sampleOnline)).count .Gimbal_Ctrl_Loop = 0 :=
  ⟨rfl, by decide,
    (enabled_tick_control_steps (worldIn ENABLED) sampleOnline rfl (by decide)).2.1,
    (enabled_tick_control_steps (worldIn ENABLED) sampleOnline rfl (by decide)).2.2.1⟩

/-! ## Input shaping -/

/-- C10: `Process_Remote_Input` stores `input.vx`, `input.vy` and `input.vomega` as
the outputs of `rate_limiter` on `rate_limiter_x` with `left_stick.x`, on
`rate_limiter_y` with `left_stick.y` and on `rate_limiter_omega` with `right_stick.x`;
each limiter is advanced by exactly that one application; the `rate_limiter` calls
made are exactly these three, one per limiter instance; nothing else of
`g_robot_state` changes. -/
theorem Process_Remote_Input_shapes_each_axis (w : World) (r : Remote_t) :
    (Process_Remote_Input w r).g_robot_state.input.vx =
      (rate_limiter w.rate_limiter_x r.controller.left_stick.x).1 ∧
    (Process_Remote_Input w r).g_robot_state.input.vy =
      (rate_limiter w.rate_limiter_y r.controller.left_stick.y).1 ∧
    (Process_Remote_Input w r).g_robot_state.input.vomega =
      (rate_limiter w.rate_limiter_omega r.controller.right_stick.x).1 ∧
    (Process_Remote_Input w r).rate_limiter_x =
      (rate_limiter w.rate_limiter_x r.controller.left_stick.x).2 ∧
    (Process_Remote_Input w r).rate_limiter_y =
      (rate_limiter w.rate_limiter_y r.controller.left_stick.y).2 ∧
    (Process_Remote_Input w r).rate_limiter_omega =
      (rate_limiter w.rate_limiter_omega r.controller.right_stick.x).2 ∧
    emitted w (Process_Remote_Input w r) =
      [.rate_limiter .rate_limiter_x r.controller.left_stick.x,
       .rate_limiter .rate_limiter_y r.controller.left_stick.y,
       .rate_limiter .rate_limiter_omega r.controller.right_stick.x] ∧
    (Process_Remote_Input w r).g_robot_state.state = w.g_robot_state.state ∧
    (Process_Remote_Input w r).g_robot_state.chassis = w.g_robot_state.chassis ∧
    (Process_Remote_Input w r).g_robot_state.launch = w.g_robot_state.launch := by
  rw [emitted_of_log_eq _ _ _ (Process_Remote_Input_log w r)]
  simp [Process_Remote_Input, emit]

/-! ## Axis isolation -/

theorem Handle_Enabled_State_active_limiters (w : World) (r : Remote_t)
    (h1 : r.online_flag ≠ REMOTE_OFFLINE) (h2 : r.controller.right_switch ≠ DOWN) :
    (Handle_Enabled_State w r).rate_limiter_x =
      (rate_limiter w.rate_limiter_x r.controller.left_stick.x).2 ∧
    (Handle_Enabled_State w r).rate_limiter_y =
      (rate_limiter w.rate_limiter_y r.controller.left_stick.y).2 ∧
    (Handle_Enabled_State w r).rate_limiter_omega =
      (rate_limiter w.rate_limiter_omega r.controller.right_stick.x).2 := by
  rw [Handle_Enabled_State_active w r h1 h2]
  simp [Process_Launch_Control, Process_Gimbal_Control, Process_Chassis_Control,
    Process_Remote_Input, emit]

theorem enabled_ticks_agree_per_axis (ps : List (Remote_t × Remote_t)) (w1 w2 : World)
    (h1 : w1.g_robot_state.state = ENABLED) (h2 : w2.g_robot_state.state = ENABLED)
    (hact : ∀ p ∈ ps,
      (p.1.online_flag ≠ REMOTE_OFFLINE ∧ p.1.controller.right_switch ≠ DOWN) ∧
      (p.2.online_flag ≠ REMOTE_OFFLINE ∧ p.2.controller.right_switch ≠ DOWN)) :
    ((w1.rate_limiter_x = w2.rate_limiter_x ∧
        ∀ p ∈ ps, p.1.controller.left_stick.x = p.2.controller.left_stick.x) →
      (run w1 (ps.map Prod.fst)).rate_limiter_x = (run w2 (ps.map Prod.snd)).rate_limiter_x ∧
      (ps ≠ [] → (run w1 (ps.map Prod.fst)).g_robot_state.input.vx =
        (run w2 (ps.map Prod.snd)).g_robot_state.input.vx)) ∧
    ((w1.rate_limiter_y = w2.rate_limiter_y ∧
        ∀ p ∈ ps, p.1.controller.left_stick.y = p.2.controller.left_stick.y) →
      (run w1 (ps.map Prod.fst)).rate_limiter_y = (run w2 (ps.map Prod.snd)).rate_limiter_y ∧
      (ps ≠ [] → (run w1 (ps.map Prod.fst)).g_robot_state.input.vy =
        (run w2 (ps.map Prod.snd)).g_robot_state.input.vy)) ∧
    ((w1.rate_limiter_omega = w2.rate_limiter_omega ∧
        ∀ p ∈ ps, p.1.controller.right_stick.x = p.2.controller.right_stick.x) →
      (run w1 (ps.map Prod.fst)).rate_limiter_omega =
        (run w2 (ps.map Prod.snd)).rate_limiter_omega ∧
      (ps ≠ [] → (run w1 (ps.map Prod.fst)).g_robot_state.input.vomega =
        (run w2 (ps.map Prod.snd)).g_robot_state.input.vomega)) := by
  induction ps generalizing w1 w2 with
  | nil => simp [run]
  | cons p rest ih =>
    obtain ⟨⟨a1, a2⟩, ⟨b1, b2⟩⟩ := hact p (List.mem_cons_self p rest)
    have hrest : ∀ q ∈ rest,
        (q.1.online_flag ≠ REMOTE_OFFLINE ∧ q.1.controller.right_switch ≠ DOWN) ∧
        (q.2.online_flag ≠ REMOTE_OFFLINE ∧ q.2.controller.right_switch ≠ DOWN) :=
      fun q hq => hact q (List.mem_cons_of_mem p hq)
    have e1 : Robot_Command_Loop w1 p.1 = Handle_Enabled_State w1 p.1 :=
      Robot_Command_Loop_enabled w1 p.1 h1
    have e2 : Robot_Command_Loop w2 p.2 = Handle_Enabled_State w2 p.2 :=
      Robot_Command_Loop_enabled w2 p.2 h2
    have s1 := Handle_Enabled_State_active_state w1 p.1 a1 a2
    have s2 := Handle_Enabled_State_active_state w2 p.2 b1 b2
    have l1 := Handle_Enabled_State_active_limiters w1 p.1 a1 a2
    have l2 := Handle_Enabled_State_active_limiters w2 p.2 b1 b2
    have h1n : (Handle_Enabled_State w1 p.1).g_robot_state.state = ENABLED := by
      rw [s1]; exact h1
    have h2n : (Handle_Enabled_State w2 p.2).g_robot_state.state = ENABLED := by
      rw [s2]; exact h2
    have ihn := ih (Handle_Enabled_State w1 p.1) (Handle_Enabled_State w2 p.2) h1n h2n hrest
    simp only [List.map_cons, run, List.foldl_cons, e1, e2, ne_eq, not_false_eq_true,
      List.cons_ne_nil, forall_true_left, reduceCtorEq]
    simp only [run] at ihn
    refine ⟨?_, ?_, ?_⟩
    · rintro ⟨hl, hs⟩
      have hp := hs p (List.mem_cons_self p rest)
      have hl2 : (Handle_Enabled_State w1 p.1).rate_limiter_x =
          (Handle_Enabled_State w2 p.2).rate_limiter_x := by
        rw [l1.1, l2.1, hl, hp]
      have hn := ihn.1 ⟨hl2, fun q hq => hs q (List.mem_cons_of_mem p hq)⟩
      refine ⟨hn.1, ?_⟩
      by_cases hr : rest = []
      · subst hr
        simp [s1, s2, hl, hp]
      · exact hn.2 hr
    · rintro ⟨hl, hs⟩
      have hp := hs p (List.mem_cons_self p rest)
      have hl2 : (Handle_Enabled_State w1 p.1).rate_limiter_y =
          (Handle_Enabled_State w2 p.2).rate_limiter_y := by
        rw [l1.2.1, l2.2.1, hl, hp]
      have hn := ihn.2.1 ⟨hl2, fun q hq => hs q (List.mem_cons_of_mem p hq)⟩
      refine ⟨hn.1, ?_⟩
      by_cases hr : rest = []
      · subst hr
        simp [s1, s2, hl, hp]
      · exact hn.2 hr
    · rintro ⟨hl, hs⟩
      have hp := hs p (List.mem_cons_self p rest)
      have hl2 : (Handle_Enabled_State w1 p.1).rate_limiter_omega =
          (Handle_Enabled_State w2 p.2).rate_limiter_omega := by
        rw [l1.2.2, l2.2.2, hl, hp]
      have hn := ihn.2.2 ⟨hl2, fun q hq => hs q (List.mem_cons_of_mem p hq)⟩
      refine ⟨hn.1, ?_⟩
      by_cases hr : rest = []
      · subst hr
        simp [s1, s2, hl, hp]
      · exact hn.2 hr

/-- C11: take two runs of `ENABLED` ticks (both start in `ENABLED`, every sample of
both keeps the robot enabled).  If the two runs start with the same `rate_limiter_y`
and `rate_limiter_omega` and their samples agree tick by tick on `left_stick.y` and
`right_stick.x`, then whatever the `left_stick.x` values are, after the runs the two
worlds have the same `rate_limiter_y` and `rate_limiter_omega` (so the same
`previous_output`) and, once at least one tick has run, the same `input.vy` and
`input.vomega`.  The same holds with `vy` as the driven axis and with `vomega` as the
driven axis.  The sample list is arbitrary, so this covers the world after every
tick. -/
theorem axis_isolation (ps : List (Remote_t × Remote_t)) (w1 w2 : World)
    (h1 : w1.g_robot_state.state = ENABLED) (h2 : w2.g_robot_state.state = ENABLED)
    (hact : ∀ p ∈ ps,
      (p.1.online_flag ≠ REMOTE_OFFLINE ∧ p.1.controller.right_switch ≠ DOWN) ∧
      (p.2.online_flag ≠ REMOTE_OFFLINE ∧ p.2.controller.right_switch ≠ DOWN)) :
    ((w1.rate_limiter_y = w2.rate_limiter_y ∧ w1.rate_limiter_omega = w2.rate_limiter_omega ∧
        ∀ p ∈ ps, p.1.controller.left_stick.y = p.2.controller.left_stick.y ∧
          p.1.controller.right_stick.x = p.2.controller.right_stick.x) →
      (run w1 (ps.map Prod.fst)).rate_limiter_y = (run w2 (ps.map Prod.snd)).rate_limiter_y ∧
      (run w1 (ps.map Prod.fst)).rate_limiter_omega =
        (run w2 (ps.map Prod.snd)).rate_limiter_omega ∧
      (ps ≠ [] →
        (run w1 (ps.map Prod.fst)).g_robot_state.input.vy =
          (run w2 (ps.map Prod.snd)).g_robot_state.input.vy ∧
        (run w1 (ps.map Prod.fst)).g_robot_state.input.vomega =
          (run w2 (ps.map Prod.snd)).g_robot_state.input.vomega)) ∧
    ((w1.rate_limiter_x = w2.rate_limiter_x ∧ w1.rate_limiter_omega = w2.rate_limiter_omega ∧
        ∀ p ∈ ps, p.1.controller.left_stick.x = p.2.controller.left_stick.x ∧
          p.1.controller.right_stick.x = p.2.controller.right_stick.x) →
      (run w1 (ps.map Prod.fst)).rate_limiter_x = (run w2 (ps.map Prod.snd)).rate_limiter_x ∧
      (run w1 (ps.map Prod.fst)).rate_limiter_omega =
        (run w2 (ps.map Prod.snd)).rate_limiter_omega ∧
      (ps ≠ [] →
        (run w1 (ps.map Prod.fst)).g_robot_state.input.vx =
          (run w2 (ps.map Prod.snd)).g_robot_state.input.vx ∧
        (run w1 (ps.map Prod.fst)).g_robot_state.input.vomega =
          (run w2 (ps.map Prod.snd)).g_robot_state.input.vomega)) ∧
    ((w1.rate_limiter_x = w2.rate_limiter_x ∧ w1.rate_limiter_y = w2.rate_limiter_y ∧
        ∀ p ∈ ps, p.1.controller.left_stick.x = p.2.controller.left_stick.x ∧
          p.1.controller.left_stick.y = p.2.controller.left_stick.y) →
      (run w1 (ps.map Prod.fst)).rate_limiter_x = (run w2 (ps.map Prod.snd)).rate_limiter_x ∧
      (run w1 (ps.map Prod.fst)).rate_limiter_y = (run w2 (ps.map Prod.snd)).rate_limiter_y ∧
      (ps ≠ [] →
        (run w1 (ps.map Prod.fst)).g_robot_state.input.vx =
          (run w2 (ps.map Prod.snd)).g_robot_state.input.vx ∧
        (run w1 (ps.map Prod.fst)).g_robot_state.input.vy =
          (run w2 (ps.map Prod.snd)).g_robot_state.input.vy)) := by
  obtain ⟨hx, hy, ho⟩ := enabled_ticks_agree_per_axis ps w1 w2 h1 h2 hact
  refine ⟨?_, ?_, ?_⟩
  · rintro ⟨ha, hb, hs⟩
    have ra := hy ⟨ha, fun p hp => (hs p hp).1⟩
    have rb := ho ⟨hb, fun p hp => (hs p hp).2⟩
    exact ⟨ra.1, rb.1, fun hne => ⟨ra.2 hne, rb.2 hne⟩⟩
  · rintro ⟨ha, hb, hs⟩
    have ra := hx ⟨ha, fun p hp => (hs p hp).1⟩
    have rb := ho ⟨hb, fun p hp => (hs p hp).2⟩
    exact ⟨ra.1, rb.1, fun hne => ⟨ra.2 hne, rb.2 hne⟩⟩
  · rintro ⟨ha, hb, hs⟩
    have ra := hx ⟨ha, fun p hp => (hs p hp).1⟩
    have rb := hy ⟨hb, fun p hp => (hs p hp).2⟩
    exact ⟨ra.1, rb.1, fun hne => ⟨ra.2 hne, rb.2 hne⟩⟩

/-- C11 on two concrete runs of two ticks that push `left_stick.x` in opposite
directions: `vy` and `vomega` and their limiters agree, while `vx` differs. -/
theorem axis_isolation_witness :
    (worldIn ENABLED).g_robot_state.state = ENABLED ∧
    (run (worldIn ENABLED) [sampleOnline, sampleOnline]).g_robot_state.input.vx ≠
      (run (worldIn ENABLED) [sampleOnlineOtherX, sampleOnlineOtherX]).g_robot_state.input.vx ∧
    (run (worldIn ENABLED) [sampleOnline, sampleOnline]).rate_limiter_y =
      (run (worldIn ENABLED) [sampleOnlineOtherX, sampleOnlineOtherX]).rate_limiter_y ∧
    (run (worldIn ENABLED) [sampleOnline, sampleOnline]).g_robot_state.input.vomega =
      (run (worldIn ENABLED) [sampleOnlineOtherX, sampleOnlineOtherX]).g_robot_state.input.vomega :=
  have hr := (axis_isolation
    [(sampleOnline, sampleOnlineOtherX), (sampleOnline, sampleOnlineOtherX)]
    (worldIn ENABLED) (worldIn ENABLED) rfl rfl (by decide)).1
      ⟨rfl, rfl, by simp [sampleOnline, sampleOnlineOtherX]⟩
  ⟨rfl,
    by
      simp [run, Robot_Command_Loop, Handle_Enabled_State, Process_Remote_Input,
        Process_Chassis_Control, Process_Gimbal_Control, Process_Launch_Control, emit,
        rate_limiter, sign, worldIn, sampleOnline, sampleOnlineOtherX, STARTING_UP, DISABLED,
        ENABLED, REMOTE_ONLINE, REMOTE_OFFLINE, DOWN]
      norm_num [abs_le],
    hr.1, (hr.2.2 (by decide)).2⟩

/-! ## Runs after start-up -/

theorem Robot_Command_Loop_running_log (w : World) (r : Remote_t)
    (h : w.g_robot_state.state = DISABLED ∨ w.g_robot_state.state = ENABLED) :
    ∃ l : List Event, (Robot_Command_Loop w r).log = w.log ++ l ∧
      (∀ e ∈ l, e.call.isInit = false ∧ e.call ≠ .Error_Handler) ∧
      ((Robot_Command_Loop w r).g_robot_state.state = DISABLED ∨
        (Robot_Command_Loop w r).g_robot_state.state = ENABLED) := by
  rcases h with h | h
  · rw [Robot_Command_Loop_disabled w r h]
    refine ⟨_, Handle_Disabled_State_log w r, ?_, ?_⟩
    · intro e he
      by_cases hc : r.online_flag = REMOTE_ONLINE ∧ r.controller.right_switch ≠ DOWN
      · simp only [if_pos hc, List.mem_cons, List.mem_singleton, List.not_mem_nil,
          or_false] at he
        rcases he with rfl | rfl <;> simp [Call.isInit]
      · simp only [if_neg hc, List.mem_cons, List.not_mem_nil, or_false] at he
        subst he
        simp [Call.isInit]
    · rw [Handle_Disabled_State_state, h]
      by_cases hc : r.online_flag = REMOTE_ONLINE ∧ r.controller.right_switch ≠ DOWN
      · exact Or.inr (if_pos hc)
      · exact Or.inl (if_neg hc)
  · rw [Robot_Command_Loop_enabled w r h]
    by_cases hc : r.online_flag = REMOTE_OFFLINE ∨ r.controller.right_switch = DOWN
    · refine ⟨[], ?_, ?_, ?_⟩
      · simp [Handle_Enabled_State, hc]
      · simp
      · left
        simp [Handle_Enabled_State, hc]
    · have h1 : r.online_flag ≠ REMOTE_OFFLINE := fun hh => hc (Or.inl hh)
      have h2 : r.controller.right_switch ≠ DOWN := fun hh => hc (Or.inr hh)
      refine ⟨_, Handle_Enabled_State_active_log w r h1 h2, ?_, ?_⟩
      · intro e he
        simp only [List.mem_cons, List.mem_singleton, List.not_mem_nil, or_false] at he
        rcases he with rfl | rfl | rfl | rfl | rfl <;> simp [Call.isInit]
      · right
        rw [Handle_Enabled_State_active_state w r h1 h2]
        exact h

theorem run_running_log (samples : List Remote_t) (w : World)
    (h : w.g_robot_state.state = DISABLED ∨ w.g_robot_state.state = ENABLED) :
    ∃ l : List Event, (run w samples).log = w.log ++ l ∧
      (∀ e ∈ l, e.call.isInit = false ∧ e.call ≠ .Error_Handler) ∧
      ((run w samples).g_robot_state.state = DISABLED ∨
        (run w samples).g_robot_state.state = ENABLED) := by
  induction samples generalizing w with
  | nil => exact ⟨[], by simp [run], by simp, by simpa [run] using h⟩
  | cons r rest ih =>
    obtain ⟨l1, hl1, hc1, hs1⟩ := Robot_Command_Loop_running_log w r h
    obtain ⟨l2, hl2, hc2, hs2⟩ := ih (Robot_Command_Loop w r) hs1
    refine ⟨l1 ++ l2, ?_, ?_, ?_⟩
    · simp only [run, List.foldl_cons] at hl2 ⊢
      rw [hl2, hl1, List.append_assoc]
    · intro e he
      rcases List.mem_append.1 he with he | he
      · exact hc1 e he
      · exact hc2 e he
    · simpa [run] using hs2

theorem Handle_Starting_Up_State_state (w : World) :
    (Handle_Starting_Up_State w).g_robot_state.state = DISABLED := by
  simp [Handle_Starting_Up_State, emit]

theorem Robot_Init_state (w : World) : (Robot_Init w).g_robot_state.state = STARTING_UP := by
  simp [Robot_Init, emit]

theorem Robot_Init_log (w : World) :
    (Robot_Init w).log =
      w.log ++ [⟨.Buzzer_Init, (Robot_Init w).g_robot_state⟩,
        ⟨.Buzzer_Play_Melody, (Robot_Init w).g_robot_state⟩,
        ⟨.Robot_Tasks_Start, (Robot_Init w).g_robot_state⟩] := by
  simp [Robot_Init, emit]

/-- C12: in every run that starts from the world left by `Robot_Init` (on any globals)
and applies at least one tick, under any sample sequence: the first tick makes exactly
the seven hardware init calls and the three `rate_limiter_init` calls and returns with
the state `DISABLED`; no tick after the first makes any init call, so over the whole
run each hardware init collaborator is called exactly once and `rate_limiter_init` is
called exactly once per limiter (with step 0.002); and the state after the run is not
`STARTING_UP`. -/
theorem init_once_per_run (w0 : World) (r : Remote_t) (rest : List Remote_t) :
    emitted (Robot_Init w0) (Robot_Command_Loop (Robot_Init w0) r) =
      [.Chassis_Task_Init, .Gimbal_Task_Init, .Launch_Task_Init, .Remote_Init,
        .CAN_Service_Init, .Referee_System_Init, .Supercap_Init,
        .rate_limiter_init .rate_limiter_x (2 / 1000),
        .rate_limiter_init .rate_limiter_y (2 / 1000),
        .rate_limiter_init .rate_limiter_omega (2 / 1000)] ∧
    (Robot_Command_Loop (Robot_Init w0) r).g_robot_state.state = DISABLED ∧
    (∀ c ∈ emitted (Robot_Command_Loop (Robot_Init w0) r) (run (Robot_Init w0) (r :: rest)),
      c.isInit = false) ∧
    (∀ c ∈ [Call.Chassis_Task_Init, .Gimbal_Task_Init, .Launch_Task_Init, .Remote_Init,
        .CAN_Service_Init, .Referee_System_Init, .Supercap_Init],
      (emitted (Robot_Init w0) (run (Robot_Init w0) (r :: rest))).count c = 1) ∧
    (∀ (l : Limiter) (step : ℚ),
      (emitted (Robot_Init w0) (run (Robot_Init w0) (r :: rest))).count
        (.rate_limiter_init l step) = if step = 2 / 1000 then 1 else 0) ∧
    (run (Robot_Init w0) (r :: rest)).g_robot_state.state ≠ STARTING_UP := by
  have hfirst : Robot_Command_Loop (Robot_Init w0) r = Handle_Starting_Up_State (Robot_Init w0) :=
    Robot_Command_Loop_starting_up _ r (Robot_Init_state w0)
  have hlog1 := Handle_Starting_Up_State_log (Robot_Init w0)
  have hst1 := Handle_Starting_Up_State_state (Robot_Init w0)
  obtain ⟨l, hl, hcalls, hst⟩ :=
    run_running_log rest (Handle_Starting_Up_State (Robot_Init w0)) (Or.inl hst1)
  have hrun : run (Robot_Init w0) (r :: rest) =
      run (Handle_Starting_Up_State (Robot_Init w0)) rest := by
    simp [run, hfirst]
  have hzero : ∀ c : Call, c.isInit = true → (l.map Event.call).count c = 0 := by
    intro c hc
    apply List.count_eq_zero_of_not_mem
    intro hmem
    obtain ⟨e, he, rfl⟩ := List.mem_map.1 hmem
    rw [(hcalls e he).1] at hc
    exact Bool.false_ne_true hc
  have hwhole := hl
  rw [hlog1, List.append_assoc] at hwhole
  rw [hrun, hfirst, emitted_of_log_eq _ _ _ hlog1, emitted_of_log_eq _ _ _ hl,
    emitted_of_log_eq _ _ _ hwhole]
  refine ⟨by simp, hst1, ?_, ?_, ?_, ?_⟩
  · intro c hc
    obtain ⟨e, he, rfl⟩ := List.mem_map.1 hc
    exact (hcalls e he).1
  · intro c hc
    rw [List.map_append, List.count_append, hzero c (by
      simp only [List.mem_cons, List.mem_singleton, List.not_mem_nil, or_false] at hc
      rcases hc with rfl | rfl | rfl | rfl | rfl | rfl | rfl <;> rfl)]
    simp only [List.mem_cons, List.mem_singleton, List.not_mem_nil, or_false] at hc
    rcases hc with rfl | rfl | rfl | rfl | rfl | rfl | rfl <;> simp
  · intro lim step
    rw [List.map_append, List.count_append, hzero (.rate_limiter_init lim step) rfl]
    cases lim <;> by_cases hs : step = 2 / 1000 <;> simp [hs, List.count_cons, eq_comm]
  · rcases hst with h | h
    · rw [h]; exact states_distinct.1.symm
    · rw [h]; exact states_distinct.2.1.symm

/-! ## Dispatch -/

/-- C13: for each of the three valid operational states, one call of
`Robot_Command_Loop` is exactly the handler selected by the pre-tick state: the
resulting world (state, snapshot, limiters and call log) is that handler's result.
The handler of the state written during the tick does not run in that tick: a
`STARTING_UP` tick makes no `DJI_Motor_Disable_All` (nor enable-all) call, and a
`DISABLED` tick makes no telemetry, rate-limiter or control-step call, also when it
moves to `ENABLED`; and no tick from a valid state calls `Error_Handler`. -/
theorem dispatch_single_handler (w : World) (r : Remote_t)
    (hvalid : w.g_robot_state.state = STARTING_UP ∨ w.g_robot_state.state = DISABLED ∨
      w.g_robot_state.state = ENABLED) :
    (w.g_robot_state.state = STARTING_UP →
      Robot_Command_Loop w r = Handle_Starting_Up_State w ∧
      Call.DJI_Motor_Disable_All ∉ emitted w (Robot_Command_Loop w r) ∧
      Call.DJI_Motor_Enable_All ∉ emitted w (Robot_Command_Loop w r)) ∧
    (w.g_robot_state.state = DISABLED →
      Robot_Command_Loop w r = Handle_Disabled_State w r ∧
      ∀ c ∈ emitted w (Robot_Command_Loop w r), c.isEnabledWork = false) ∧
    (w.g_robot_state.state = ENABLED →
      Robot_Command_Loop w r = Handle_Enabled_State w r ∧
      Call.DJI_Motor_Disable_All ∉ emitted w (Robot_Command_Loop w r)) ∧
    Call.Error_Handler ∉ emitted w (Robot_Command_Loop w r) := by
  refine ⟨?_, ?_, ?_, ?_⟩
  rotate_right
  · rcases hvalid with h | h
    · rw [Robot_Command_Loop_starting_up w r h,
        emitted_of_log_eq _ _ _ (Handle_Starting_Up_State_log w)]
      simp
    · obtain ⟨l, hl, hcalls, _⟩ := Robot_Command_Loop_running_log w r h
      rw [emitted_of_log_eq _ _ _ hl]
      intro hmem
      obtain ⟨e, he, heq⟩ := List.mem_map.1 hmem
      exact (hcalls e he).2 heq
  · intro h
    rw [Robot_Command_Loop_starting_up w r h,
      emitted_of_log_eq _ _ _ (Handle_Starting_Up_State_log w)]
    simp
  · intro h
    rw [Robot_Command_Loop_disabled w r h,
      emitted_of_log_eq _ _ _ (Handle_Disabled_State_log w r)]
    refine ⟨rfl, ?_⟩
    by_cases hc : r.online_flag = REMOTE_ONLINE ∧ r.controller.right_switch ≠ DOWN
    · simp [hc, Call.isEnabledWork]
    · simp [hc, Call.isEnabledWork]
  · intro h
    rw [Robot_Command_Loop_enabled w r h]
    refine ⟨rfl, ?_⟩
    by_cases hc : r.online_flag = REMOTE_OFFLINE ∨ r.controller.right_switch = DOWN
    · simp [Handle_Enabled_State, hc, emitted]
    · have h1 : r.online_flag ≠ REMOTE_OFFLINE := fun hh => hc (Or.inl hh)
      have h2 : r.controller.right_switch ≠ DOWN := fun hh => hc (Or.inr hh)
      rw [emitted_of_log_eq _ _ _ (Handle_Enabled_State_active_log w r h1 h2)]
      simp

/-- C13 on concrete ticks: a start-up tick and a disabled tick that moves to
`ENABLED`. -/
theorem dispatch_single_handler_witness :
    ((worldIn STARTING_UP).g_robot_state.state = STARTING_UP ∧
      Call.DJI_Motor_Disable_All ∉
        emitted (worldIn STARTING_UP) (Robot_Command_Loop (worldIn STARTING_UP) sampleOnline)) ∧
    ((worldIn DISABLED).g_robot_state.state = DISABLED ∧
      (Robot_Command_Loop (worldIn DISABLED) sampleOnline).g_robot_state.state = ENABLED ∧
      ∀ c ∈ emitted (worldIn DISABLED) (Robot_Command_Loop (worldIn DISABLED) sampleOnline),
        c.isEnabledWork = false) :=
  ⟨⟨rfl, ((dispatch_single_handler (worldIn STARTING_UP) sampleOnline
      (Or.inl rfl)).1 rfl).2.1⟩,
    ⟨rfl, by decide, ((dispatch_single_handler (worldIn DISABLED) sampleOnline
      (Or.inr (Or.inl rfl))).2.1 rfl).2⟩⟩

/-! ## Order of actions in the DISABLED handler -/

/-- C17: in `Handle_Disabled_State`, for every world and remote sample, the first
call is `DJI_Motor_Disable_All`, made on the `g_robot_state` the handler was entered
with, whatever the transition condition turns out to be.  On a tick that moves from
`DISABLED` to `ENABLED` the calls are exactly `DJI_Motor_Disable_All` then
`DJI_Motor_Enable_All`, and the `g_robot_state` at the enable-all call already has both
chassis speeds zero and the flywheel flag cleared; on a tick that stays `DISABLED` the
calls are exactly `DJI_Motor_Disable_All`. -/
theorem disabled_handler_order (w : World) (r : Remote_t)
    (h : w.g_robot_state.state = DISABLED) :
    ((Handle_Disabled_State w r).log.drop w.log.length).head? =
      some ⟨.DJI_Motor_Disable_All, w.g_robot_state⟩ ∧
    ((Robot_Command_Loop w r).g_robot_state.state = ENABLED →
      emitted w (Robot_Command_Loop w r) = [.DJI_Motor_Disable_All, .DJI_Motor_Enable_All] ∧
      ∀ e ∈ (Robot_Command_Loop w r).log.drop w.log.length,
        e.call = .DJI_Motor_Enable_All →
          e.seen.chassis.x_speed = 0 ∧ e.seen.chassis.y_speed = 0 ∧
          e.seen.launch.IS_FLYWHEEL_ENABLED = 0) ∧
    ((Robot_Command_Loop w r).g_robot_state.state = DISABLED →
      emitted w (Robot_Command_Loop w r) = [.DJI_Motor_Disable_All]) := by
  rw [Robot_Command_Loop_disabled w r h,
    emitted_of_log_eq _ _ _ (Handle_Disabled_State_log w r), Handle_Disabled_State_log,
    Handle_Disabled_State_state, h]
  by_cases hc : r.online_flag = REMOTE_ONLINE ∧ r.controller.right_switch ≠ DOWN
  · refine ⟨by simp, ?_, ?_⟩
    · intro _
      refine ⟨by simp [hc], ?_⟩
      intro e he
      simp only [if_pos hc, List.drop_left, List.mem_cons, List.mem_singleton,
        List.not_mem_nil, or_false] at he
      rcases he with rfl | rfl <;> simp
    · intro hpost
      rw [if_pos hc] at hpost
      exact absurd hpost states_distinct.2.2.symm
  · refine ⟨by simp, ?_, ?_⟩
    · intro hpost
      rw [if_neg hc] at hpost
      exact absurd hpost states_distinct.2.2
    · intro _
      simp [hc]

/-- C17 on concrete ticks: a disabled robot that is re-enabled, and one that is not. -/
theorem disabled_handler_order_witness :
    ((worldIn DISABLED).g_robot_state.state = DISABLED ∧
      (Robot_Command_Loop (worldIn DISABLED) sampleOnline).g_robot_state.state = ENABLED ∧
      emitted (worldIn DISABLED) (Robot_Command_Loop (worldIn DISABLED) sampleOnline) =
        [.DJI_Motor_Disable_All, .DJI_Motor_Enable_All]) ∧
    ((Robot_Command_Loop (worldIn DISABLED) sampleOffline).g_robot_state.state = DISABLED ∧
      emitted (worldIn DISABLED) (Robot_Command_Loop (worldIn DISABLED) sampleOffline) =
        [.DJI_Motor_Disable_All]) :=
  ⟨⟨rfl, by decide,
      ((disabled_handler_order (worldIn DISABLED) sampleOnline rfl).2.1 (by decide)).1⟩,
    ⟨by decide,
      (disabled_handler_order (worldIn DISABLED) sampleOffline rfl).2.2 (by decide)⟩⟩

/-! ## The fatal path -/

/-- C18: in every run that starts from the world left by `Robot_Init` (on any
globals) and applies any number of `Robot_Command_Loop` ticks under any sample
sequence, collaborators not writing the operational state, the operational state is one
of `STARTING_UP`, `DISABLED`, `ENABLED` and `Error_Handler` has not been called. -/
theorem fatal_path_unreachable (w0 : World) (samples : List Remote_t) :
    ((run (Robot_Init w0) samples).g_robot_state.state = STARTING_UP ∨
      (run (Robot_Init w0) samples).g_robot_state.state = DISABLED ∨
      (run (Robot_Init w0) samples).g_robot_state.state = ENABLED) ∧
    Call.Error_Handler ∉ emitted w0 (run (Robot_Init w0) samples) := by
  cases samples with
  | nil =>
    refine ⟨Or.inl (by simpa [run] using Robot_Init_state w0), ?_⟩
    have hlog : (run (Robot_Init w0) []).log = _ := Robot_Init_log w0
    rw [emitted_of_log_eq _ _ _ hlog]
    simp
  | cons r rest =>
    have hfirst : Robot_Command_Loop (Robot_Init w0) r =
        Handle_Starting_Up_State (Robot_Init w0) :=
      Robot_Command_Loop_starting_up _ r (Robot_Init_state w0)
    obtain ⟨l, hl, hcalls, hst⟩ :=
      run_running_log rest (Handle_Starting_Up_State (Robot_Init w0))
        (Or.inl (Handle_Starting_Up_State_state _))
    have hrun : run (Robot_Init w0) (r :: rest) =
        run (Handle_Starting_Up_State (Robot_Init w0)) rest := by
      simp [run, hfirst]
    rw [hrun]
    refine ⟨Or.inr hst, ?_⟩
    rw [Handle_Starting_Up_State_log, Robot_Init_log, List.append_assoc,
      List.append_assoc] at hl
    rw [emitted_of_log_eq _ _ _ hl]
    intro hmem
    rw [List.map_append, List.map_append, List.mem_append, List.mem_append] at hmem
    rcases hmem with hmem | hmem | hmem
    · simp at hmem
    · simp at hmem
    · obtain ⟨e, he, heq⟩ := List.mem_map.1 hmem
      exact (hcalls e he).2 heq

/-! ## ENABLED only under a safe sample -/

/-- C19: for every valid pre-tick state, world and remote sample, if the operational
state after `Robot_Command_Loop` is `ENABLED` then the sample read in that tick had
`online_flag` different from `REMOTE_OFFLINE` and `right_switch` different from
`DOWN`. -/
theorem enabled_after_tick_implies_safe_sample (w : World) (r : Remote_t)
    (hvalid : w.g_robot_state.state = STARTING_UP ∨ w.g_robot_state.state = DISABLED ∨
      w.g_robot_state.state = ENABLED)
    (hpost : (Robot_Command_Loop w r).g_robot_state.state = ENABLED) :
    r.online_flag ≠ REMOTE_OFFLINE ∧ r.controller.right_switch ≠ DOWN := by
  rcases hvalid with h | h | h
  · rw [Robot_Command_Loop_starting_up w r h, Handle_Starting_Up_State_state] at hpost
    exact absurd hpost states_distinct.2.2
  · rw [Robot_Command_Loop_disabled w r h, Handle_Disabled_State_state, h] at hpost
    by_cases hc : r.online_flag = REMOTE_ONLINE ∧ r.controller.right_switch ≠ DOWN
    · refine ⟨?_, hc.2⟩
      rw [hc.1]
      decide
    · rw [if_neg hc] at hpost
      exact absurd hpost states_distinct.2.2
  · rw [Robot_Command_Loop_enabled w r h] at hpost
    by_cases hc : r.online_flag = REMOTE_OFFLINE ∨ r.controller.right_switch = DOWN
    · simp [Handle_Enabled_State, hc] at hpost
      exact absurd hpost states_distinct.2.2
    · exact ⟨fun hh => hc (Or.inl hh), fun hh => hc (Or.inr hh)⟩

/-- C19 on a concrete tick: a disabled robot that ends the tick enabled. -/
theorem enabled_after_tick_implies_safe_sample_witness :
    (worldIn DISABLED).g_robot_state.state = DISABLED ∧
    (Robot_Command_Loop (worldIn DISABLED) sampleOnline).g_robot_state.state = ENABLED ∧
    sampleOnline.online_flag ≠ REMOTE_OFFLINE ∧
    sampleOnline.controller.right_switch ≠ DOWN :=
  ⟨rfl, by decide,
    enabled_after_tick_implies_safe_sample (worldIn DISABLED) sampleOnline
      (Or.inr (Or.inl rfl)) (by decide)⟩

/-! ## Frame of the DISABLED handler -/

/-- C20: `Handle_Disabled_State`, for every world and remote sample, leaves
`input.vx`, `input.vy`, `input.vomega` and the three limiters (so their
`previous_output`) unchanged; of `g_robot_state` it writes only the operational
state, `chassis.x_speed`, `chassis.y_speed` and `launch.IS_FLYWHEEL_ENABLED`.  So the
limiters are not reset while disabled: when the handler has re-enabled the robot, the
next tick, if it keeps the robot enabled, shapes each axis from the limiter as it was
before the disabled tick. -/
theorem Handle_Disabled_State_frame (w : World) (r : Remote_t) :
    (Handle_Disabled_State w r).g_robot_state.input = w.g_robot_state.input ∧
    (Handle_Disabled_State w r).rate_limiter_x = w.rate_limiter_x ∧
    (Handle_Disabled_State w r).rate_limiter_y = w.rate_limiter_y ∧
    (Handle_Disabled_State w r).rate_limiter_omega = w.rate_limiter_omega ∧
    (Handle_Disabled_State w r).g_robot_state =
      { state :=
          if r.online_flag = REMOTE_ONLINE ∧ r.controller.right_switch ≠ DOWN then ENABLED
          else w.g_robot_state.state
        input := w.g_robot_state.input
        chassis := ⟨0, 0⟩
        launch := ⟨0⟩ } ∧
    (∀ r2 : Remote_t, (Handle_Disabled_State w r).g_robot_state.state = ENABLED →
      r2.online_flag ≠ REMOTE_OFFLINE → r2.controller.right_switch ≠ DOWN →
        (Robot_Command_Loop (Handle_Disabled_State w r) r2).g_robot_state.input =
          ⟨(rate_limiter w.rate_limiter_x r2.controller.left_stick.x).1,
            (rate_limiter w.rate_limiter_y r2.controller.left_stick.y).1,
            (rate_limiter w.rate_limiter_omega r2.controller.right_stick.x).1⟩) := by
  have hin : (Handle_Disabled_State w r).g_robot_state.input = w.g_robot_state.input := by
    unfold Handle_Disabled_State
    split <;> simp [emit]
  have hx : (Handle_Disabled_State w r).rate_limiter_x = w.rate_limiter_x := by
    unfold Handle_Disabled_State
    split <;> simp [emit]
  have hy : (Handle_Disabled_State w r).rate_limiter_y = w.rate_limiter_y := by
    unfold Handle_Disabled_State
    split <;> simp [emit]
  have ho : (Handle_Disabled_State w r).rate_limiter_omega = w.rate_limiter_omega := by
    unfold Handle_Disabled_State
    split <;> simp [emit]
  refine ⟨hin, hx, hy, ho, ?_, ?_⟩
  · unfold Handle_Disabled_State
    split <;> rename_i hc <;> simp [emit, hc]
  · intro r2 hen h1 h2
    rw [Robot_Command_Loop_enabled _ r2 hen, Handle_Enabled_State_active_state _ r2 h1 h2,
      hx, hy, ho]

/-- C20 on concrete ticks: a disabled robot whose `rate_limiter_x` holds 1/4 is
re-enabled; the next tick shapes `vx` from 1/4, one step of 0.002 towards the stick. -/
theorem Handle_Disabled_State_frame_witness :
    (Handle_Disabled_State (worldIn DISABLED) sampleOnline).g_robot_state.state = ENABLED ∧
    sampleOnline.online_flag ≠ REMOTE_OFFLINE ∧
    sampleOnline.controller.right_switch ≠ DOWN ∧
    (Handle_Disabled_State (worldIn DISABLED) sampleOnline).rate_limiter_x =
      ⟨1 / 4, 2 / 1000⟩ ∧
    (Robot_Command_Loop (Handle_Disabled_State (worldIn DISABLED) sampleOnline)
      sampleOnline).g_robot_state.input.vx =
        (rate_limiter ⟨1 / 4, 2 / 1000⟩ 1).1 :=
  ⟨by decide, by decide, by decide,
    (Handle_Disabled_State_frame (worldIn DISABLED) sampleOnline).2.1,
    congrArg Input_t.vx
      ((Handle_Disabled_State_frame (worldIn DISABLED) sampleOnline).2.2.2.2.2
        sampleOnline (by decide) (by decide) (by decide))⟩

/-! ## Rate limiter -/

theorem abs_sign_le_one (d : ℚ) : |sign d| ≤ 1 := by
  unfold sign
  split
  · simp
  · split <;> simp

theorem rate_limiter_step_bound (rl : rate_limiter_t) (hm : 0 ≤ rl.max_step) (t : ℚ) :
    |(rate_limiter rl t).1 - rl.previous_output| ≤ rl.max_step := by
  unfold rate_limiter
  simp only
  split
  · assumption
  · rw [add_sub_cancel_left, abs_mul, abs_of_nonneg hm]
    calc |sign (t - rl.previous_output)| * rl.max_step
        ≤ 1 * rl.max_step := mul_le_mul_of_nonneg_right (abs_sign_le_one _) hm
      _ = rl.max_step := one_mul _

theorem rate_limiter_stores_output (rl : rate_limiter_t) (t : ℚ) :
    (rate_limiter rl t).2.previous_output = (rate_limiter rl t).1 ∧
    (rate_limiter rl t).2.max_step = rl.max_step := by
  simp [rate_limiter]

theorem rate_limiter_outputs_chain (m : ℚ) (hm : 0 ≤ m) (targets : List ℚ)
    (rl : rate_limiter_t) (hrl : rl.max_step = m) :
    List.Chain (fun a b => |b - a| ≤ m) rl.previous_output
      (rate_limiter_outputs rl targets) := by
  induction targets generalizing rl with
  | nil => exact List.Chain.nil
  | cons t ts ih =>
    have hb := rate_limiter_step_bound rl (hrl ▸ hm) t
    have hs := rate_limiter_stores_output rl t
    have hnext := ih (rate_limiter rl t).2 (hs.2.trans hrl)
    rw [hs.1] at hnext
    rw [hrl] at hb
    exact List.Chain.cons hb hnext

/-- C14: with the limiter modelled from the spec's apply rule and `max_step > 0`, for
every initial `previous_output` and every sequence of raw targets, the output of each
call differs from the previously emitted output (for the first call: from the initial
`previous_output`) by at most `max_step` in absolute value; each call stores its
output as the new `previous_output` and keeps `max_step`. -/
theorem rate_limiter_slew_bound (rl : rate_limiter_t) (hpos : 0 < rl.max_step)
    (targets : List ℚ) :
    (∀ t : ℚ, |(rate_limiter rl t).1 - rl.previous_output| ≤ rl.max_step ∧
      (rate_limiter rl t).2.previous_output = (rate_limiter rl t).1 ∧
      (rate_limiter rl t).2.max_step = rl.max_step) ∧
    List.Chain (fun a b => |b - a| ≤ rl.max_step) rl.previous_output
      (rate_limiter_outputs rl targets) :=
  ⟨fun t => ⟨rate_limiter_step_bound rl hpos.le t, rate_limiter_stores_output rl t⟩,
    rate_limiter_outputs_chain rl.max_step hpos.le targets rl rfl⟩

/-- C14 on a concrete limiter: step 0.002, a stick snapped from 0 to 1 and back. -/
theorem rate_limiter_slew_bound_witness :
    (0 : ℚ) < (rate_limiter_t.mk 0 (2 / 1000)).max_step ∧
    List.Chain (fun a b : ℚ => |b - a| ≤ (rate_limiter_t.mk 0 (2 / 1000)).max_step)
      (rate_limiter_t.mk 0 (2 / 1000)).previous_output
      (rate_limiter_outputs (rate_limiter_t.mk 0 (2 / 1000)) [1, 1, -1]) :=
  ⟨by norm_num,
    (rate_limiter_slew_bound (rate_limiter_t.mk 0 (2 / 1000)) (by norm_num) [1, 1, -1]).2⟩

theorem rate_limiter_repeat_succ (rl : rate_limiter_t) (t : ℚ) (n : Nat) :
    rate_limiter_repeat rl t (n + 1) = (rate_limiter (rate_limiter_repeat rl t n) t).2 := by
  induction n generalizing rl with
  | zero => rfl
  | succ n ih =>
    show rate_limiter_repeat (rate_limiter rl t).2 t (n + 1) = _
    rw [ih]
    rfl

theorem rate_limiter_error_shrinks (rl : rate_limiter_t) (hm : 0 < rl.max_step) (t : ℚ)
    (c : ℚ) (hc : |t - rl.previous_output| ≤ c + rl.max_step) (hc0 : 0 ≤ c) :
    |t - (rate_limiter rl t).2.previous_output| ≤ c := by
  rw [(rate_limiter_stores_output rl t).1]
  unfold rate_limiter
  simp only
  split
  · simpa using hc0
  · rename_i hbig
    have hbig2 : rl.max_step < |t - rl.previous_output| := not_le.1 hbig
    unfold sign
    split
    · rename_i hp
      rw [abs_of_pos hp] at hc hbig2
      rw [abs_of_nonneg (by linarith)]
      linarith
    · rename_i hnp
      have hneg : t - rl.previous_output < 0 := by
        rcases lt_trichotomy (t - rl.previous_output) 0 with h | h | h
        · exact h
        · rw [h, abs_zero] at hbig2
          linarith
        · exact absurd h hnp
      rw [if_pos hneg]
      rw [abs_of_neg hneg] at hc hbig2
      rw [abs_of_nonpos (by linarith)]
      linarith

theorem rate_limiter_repeat_reaches (t : ℚ) (m : ℚ) (hm : 0 < m) (k : Nat)
    (rl : rate_limiter_t) (hrl : rl.max_step = m)
    (hk : |t - rl.previous_output| ≤ k * m) :
    (rate_limiter_repeat rl t k).previous_output = t := by
  induction k generalizing rl with
  | zero =>
    simp only [Nat.cast_zero, zero_mul] at hk
    have h0 : t - rl.previous_output = 0 := abs_eq_zero.1 (le_antisymm hk (abs_nonneg _))
    show rl.previous_output = t
    linarith
  | succ k ih =>
    show (rate_limiter_repeat (rate_limiter rl t).2 t k).previous_output = t
    apply ih (rate_limiter rl t).2 ((rate_limiter_stores_output rl t).2.trans hrl)
    apply rate_limiter_error_shrinks rl (hrl ▸ hm) t
    · rw [hrl]
      push_cast at hk
      linarith
    · positivity

/-- C15: with the limiter modelled from the spec's apply rule in exact arithmetic and
`max_step > 0`, for every initial `previous_output` `p` and constant target `t`, let
`n = ceil(|t - p| / max_step)`.  After any `k ≥ n` successive calls with target `t`
the stored output is exactly `t`, and every call from the `n`-th on returns exactly
`t`. -/
theorem rate_limiter_converges (rl : rate_limiter_t) (t : ℚ) (hpos : 0 < rl.max_step) :
    (∀ k : Nat, ⌈|t - rl.previous_output| / rl.max_step⌉₊ ≤ k →
      (rate_limiter_repeat rl t k).previous_output = t) ∧
    (∀ j : Nat, ⌈|t - rl.previous_output| / rl.max_step⌉₊ ≤ j + 1 →
      (rate_limiter (rate_limiter_repeat rl t j) t).1 = t) := by
  have hreach : ∀ k : Nat, ⌈|t - rl.previous_output| / rl.max_step⌉₊ ≤ k →
      (rate_limiter_repeat rl t k).previous_output = t := by
    intro k hk
    apply rate_limiter_repeat_reaches t rl.max_step hpos k rl rfl
    have h1 : |t - rl.previous_output| / rl.max_step ≤ (k : ℚ) :=
      le_trans (Nat.le_ceil _) (by exact_mod_cast hk)
    exact (div_le_iff₀ hpos).1 h1
  refine ⟨hreach, ?_⟩
  intro j hj
  rw [← (rate_limiter_stores_output (rate_limiter_repeat rl t j) t).1,
    ← rate_limiter_repeat_succ]
  exact hreach (j + 1) hj

/-- C15 on a concrete limiter: step 0.002 from 0 towards 0.01 arrives in 5 calls. -/
theorem rate_limiter_converges_witness :
    (0 : ℚ) < (rate_limiter_t.mk 0 (2 / 1000)).max_step ∧
    ⌈|(1 / 100 : ℚ) - (rate_limiter_t.mk 0 (2 / 1000)).previous_output| /
      (rate_limiter_t.mk 0 (2 / 1000)).max_step⌉₊ ≤ 5 ∧
    (rate_limiter_repeat (rate_limiter_t.mk 0 (2 / 1000)) (1 / 100) 5).previous_output =
      1 / 100 :=
  have hn : ⌈|(1 / 100 : ℚ) - (rate_limiter_t.mk 0 (2 / 1000)).previous_output| /
      (rate_limiter_t.mk 0 (2 / 1000)).max_step⌉₊ ≤ 5 :=
    Nat.ceil_le.2 (by norm_num [abs_of_nonneg])
  ⟨by norm_num, hn,
    (rate_limiter_converges (rate_limiter_t.mk 0 (2 / 1000)) (1 / 100) (by norm_num)).1 5 hn⟩

theorem rate_limiter_at_target (rl : rate_limiter_t) (t : ℚ) (h : rl.previous_output = t) :
    rate_limiter rl t = (t, rl) := by
  cases rl with
  | mk p m =>
    simp only at h
    subst h
    simp [rate_limiter, sign]

/-- C16: with the limiter modelled from the spec's apply rule, for every `max_step`
and every limiter whose `previous_output` equals the raw target, a call with that
target returns the target and leaves the limiter unchanged, and so does every one of
any number of repeated calls. -/
theorem rate_limiter_equilibrium (rl : rate_limiter_t) (t : ℚ)
    (h : rl.previous_output = t) :
    rate_limiter rl t = (t, rl) ∧
    ∀ k : Nat, rate_limiter_repeat rl t k = rl ∧
      (rate_limiter (rate_limiter_repeat rl t k) t).1 = t := by
  have hone := rate_limiter_at_target rl t h
  have hrep : ∀ k : Nat, rate_limiter_repeat rl t k = rl := by
    intro k
    induction k with
    | zero => rfl
    | succ k ih => rw [rate_limiter_repeat_succ, ih, hone]
  refine ⟨hone, fun k => ⟨hrep k, ?_⟩⟩
  rw [hrep k, hone]

/-- C16 on a concrete limiter at rest on its target, with a negative `max_step`. -/
theorem rate_limiter_equilibrium_witness :
    (rate_limiter_t.mk (1 / 4) (-1)).previous_output = 1 / 4 ∧
    rate_limiter (rate_limiter_t.mk (1 / 4) (-1)) (1 / 4) =
      (1 / 4, rate_limiter_t.mk (1 / 4) (-1)) ∧
    rate_limiter_repeat (rate_limiter_t.mk (1 / 4) (-1)) (1 / 4) 3 =
      rate_limiter_t.mk (1 / 4) (-1) :=
  ⟨rfl, (rate_limiter_equilibrium (rate_limiter_t.mk (1 / 4) (-1)) (1 / 4) rfl).1,
    ((rate_limiter_equilibrium (rate_limiter_t.mk (1 / 4) (-1)) (1 / 4) rfl).2 3).1⟩

end Minibot
